import Mathlib

/-!
Verification of the calibrimbore composite-magnitude engine
(src/calibrimbore/calibrimbore.py) against its natural-language specification.

The numerical core of the `sauron` class is shallowly embedded below.  Machine
floats are modelled by real numbers, numpy arrays by lists (numpy elementwise
arithmetic becomes List.map / List.zipWith, boolean-mask indexing becomes
`boolSelect`, `np.nansum` becomes `List.sum` since the real-number model has no
NaN).  Python exceptions are modelled with `Except`.  External collaborators
(pysynphot synthetic photometry, scipy.optimize.minimize, astropy sigma_clip,
the R_val extinction table) are out of scope per the spec; whatever they return
is taken as a parameter of the corresponding definition.
-/

namespace Calibrimbore

noncomputable section
open Classical

/-- Python exceptions raised by the embedded code paths: `TypeError`
(subscripting None) and `ValueError` (explicit raise). -/
inductive PyError
  | typeError
  | valueError
deriving DecidableEq

/-- A sampled bandpass: wavelength grid and throughput values
(pysynphot ArrayBandpass carrying the two columns of the input table). -/
structure Bandpass where
  wave : List ℝ
  throughput : List ℝ

/-- One calibration sample's reference-band magnitudes: the entries of the
`sys_mags` dictionary in bands g, r, i, z, y. -/
structure MagTable where
  g : ℝ
  r : ℝ
  i : ℝ
  z : ℝ
  y : ℝ

/-- The 6-entry coefficient vector `[g, r, i, z, y, power]` of the composite
model (`self.coeff`): five flux weights and the exponent. -/
structure Coeff where
  c0 : ℝ
  c1 : ℝ
  c2 : ℝ
  c3 : ℝ
  c4 : ℝ
  c5 : ℝ

/-- Embedding of `mag2flux(mag, zp=25)`: `f = 10**(2/5*(zp-mag))`. -/
def mag2flux (mag zp : ℝ) : ℝ := (10 : ℝ) ^ (2 / 5 * (zp - mag))

/-- Embedding of `_get_extinction` in the `ext is None` branch: `A = 0`.
(The `ext is not None` branch calls the external collaborator `R_val`; every
claim below is about the zero-extinction path.) -/
def get_extinction_zero : ℝ := 0

/-- Embedding of `sauron.make_composite` restricted to the zero-extinction path
(`ext=None`), acting on one calibration sample (numpy broadcasts this formula
elementwise over the magnitude arrays).  Fluxes for g and i are always
computed; r, z, y are initialised to 0 and only overwritten with a flux when
the band letter occurs in `sys_filters`.  The source also computes a `u` flux
when 'u' is in `sys_filters`, but never uses it in `comp`, so it is omitted.
The final two lines are
`comp = (coeff[0]*g + coeff[1]*r + coeff[2]*i + coeff[3]*z + coeff[4]*y)*(g/i)**(coeff[5])`
and `comp = -2.5*np.log10(comp) + 25`. -/
def make_composite (sys_filters : List Char) (coeff : Coeff) (m : MagTable) : ℝ :=
  let g := mag2flux (m.g - get_extinction_zero) 25
  let i := mag2flux (m.i - get_extinction_zero) 25
  let r := if 'r' ∈ sys_filters then mag2flux (m.r - get_extinction_zero) 25 else 0
  let z := if 'z' ∈ sys_filters then mag2flux (m.z - get_extinction_zero) 25 else 0
  let y := if 'y' ∈ sys_filters then mag2flux (m.y - get_extinction_zero) 25 else 0
  let comp := ((coeff.c0 * g + coeff.c1 * r + coeff.c2 * i + coeff.c3 * z + coeff.c4 * y)
    * (g / i) ^ coeff.c5);
  -2.5 * Real.logb 10 comp + 25

/-- Embedding of the full `make_composite` method call with its `coeff`
keyword argument.  In the source the guard `if coeff is None:` is commented
out and the line `coeff = self.coeff` executes unconditionally, so the
argument is never read. -/
def make_composite_meth (sys_filters : List Char) (self_coeff : Coeff)
    (_coeff_arg : Option Coeff) (m : MagTable) : ℝ :=
  make_composite sys_filters self_coeff m

/-- Flux conversion as written in the spec: `flux = 10^(2/5*(25 - mag))`. -/
def spec_flux (mag : ℝ) : ℝ := (10 : ℝ) ^ (2 / 5 * (25 - mag))

/-- The composite formula as written in the spec and claim C1:
`composite = -2.5*log10((c_g*f_g + c_r*f_r + c_i*f_i + c_z*f_z + c_y*f_y) * (f_g/f_i)^c_exp) + 25`
where bands g and i (always required) contribute their flux, and each other
band contributes zero flux unless it occurs in the active-band string. -/
def spec_composite (active : List Char) (c : Coeff) (m : MagTable) : ℝ :=
  let fg := spec_flux m.g
  let fi := spec_flux m.i
  let fr := if 'r' ∈ active then spec_flux m.r else 0
  let fz := if 'z' ∈ active then spec_flux m.z else 0
  let fy := if 'y' ∈ active then spec_flux m.y else 0;
  -2.5 * Real.logb 10 ((c.c0 * fg + c.c1 * fr + c.c2 * fi + c.c3 * fz + c.c4 * fy)
    * (fg / fi) ^ c.c5) + 25

/-- Numpy boolean-mask indexing `xs[ind]`: keep the entries of `xs` whose
corresponding entry of `ind` is true. -/
def boolSelect {α : Type} : List α → List Bool → List α
  | x :: xs, b :: bs => if b then x :: boolSelect xs bs else boolSelect xs bs
  | _, _ => []

/-- The instance fields of `sauron` read by the fitting stages: the active-band
string, the stored coefficients, the per-sample reference magnitudes
(`sys_mags`, one entry per calibration sample), the synthetic true magnitudes
(`mags`), the two optional colour limits and the residual mask (None before
`fit_comp` computes it). -/
structure FitState where
  sys_filters : List Char
  coeff : Coeff
  sys_mags : List MagTable
  mags : List ℝ
  gr_lims : Option (ℝ × ℝ)
  gi_lims : Option (ℝ × ℝ)
  mask : Option (List Bool)

/-- Embedding of `sauron.comp_minimizer`.  The candidate coefficients are
stored and `make_composite()` recomputes `self.comp` from `self.sys_mags`
(elementwise, hence List.map).  The sample filter: with `gr_lims` set it keeps
samples with `gr_lims[0] < g-r < gr_lims[1]`; otherwise, if `gi_lims` is set,
the source evaluates `self.gr_lims[0]` — but `self.gr_lims` is None on that
branch, so subscripting raises TypeError; otherwise all samples are kept
(`np.isfinite` of a real magnitude is true).  `self.diff` is set to
`mags[ind] - comp[ind]` and the returned residual is `np.nansum(abs(diff))`
(over `diff[self.mask]` once a mask exists); `nansum` of a list of reals is its
sum, and of an empty selection is 0. -/
def comp_minimizer (s : FitState) (coeff : Coeff) : Except PyError (ℝ × List ℝ) :=
  let comp := s.sys_mags.map (make_composite s.sys_filters coeff)
  let indE : Except PyError (List Bool) :=
    match s.gr_lims with
    | some (lo, hi) =>
        Except.ok (s.sys_mags.map (fun m =>
          if lo < m.g - m.r ∧ m.g - m.r < hi then true else false))
    | none =>
        match s.gi_lims with
        | some _ => Except.error PyError.typeError
        | none => Except.ok (s.sys_mags.map (fun _ => true))
  match indE with
  | Except.error e => Except.error e
  | Except.ok ind =>
    let diff := boolSelect (List.zipWith (fun a b => a - b) s.mags comp) ind
    let res : ℝ :=
      match s.mask with
      | none => (diff.map (fun d => |d|)).sum
      | some msk => ((boolSelect diff msk).map (fun d => |d|)).sum
    Except.ok (res, diff)

/-- Embedding of the `self.gr` initialisation in `sauron.__init__`:
`self.gr = sys_mags['g'] - sys_mags['r']`, restricted to the `gr_lims`
interval when `gr_lims` is given (note: `gi_lims` never enters here). -/
def init_gr (sys_mags : List MagTable) (gr_lims : Option (ℝ × ℝ)) : List ℝ :=
  let gr := sys_mags.map (fun m => m.g - m.r)
  match gr_lims with
  | none => gr
  | some (lo, hi) => boolSelect gr (gr.map (fun c => if lo < c ∧ c < hi then true else false))

/-- Embedding of `sauron.cubic_correction` applied to a colour array:
`coeff[0] + coeff[1]*x + coeff[2]*x**2 + coeff[3]*x**3` elementwise.  When the
method is called with `x=None` it uses `self.gr` (see `init_gr`). -/
def cubic_correction (cubic_coeff : List ℝ) (x : List ℝ) : List ℝ :=
  x.map (fun t => cubic_coeff.getD 0 0 + cubic_coeff.getD 1 0 * t
    + cubic_coeff.getD 2 0 * t ^ 2 + cubic_coeff.getD 3 0 * t ^ 3)

/-- Embedding of the mask update in `sauron.fit_cubic_correction`:
`mask = sigma_clip(self.diff - self.cubic_correction(), sigma=3).mask` followed
by `self.mask[mask] = False`.  The sigma-clip outlier flags `clip` come from
the external astropy collaborator and are taken as an argument; the update
writes False at every flagged position and leaves the rest unchanged. -/
def fit_cubic_mask_update (mask clip : List Bool) : List Bool :=
  (mask.zip clip).map (fun p => if p.2 then false else p.1)

/-- The reference photometric systems accepted by `_check_system`. -/
inductive RefSystem
  | ps1
  | skymapper
  | lsst
deriving DecidableEq

/-- The flooring done by `c0[c0 < 0.01] = 0` in `fit_comp`, elementwise. -/
def floor01 (x : ℝ) : ℝ := if x < 0.01 then 0 else x

/-- Embedding of the seed construction in `sauron.fit_comp` when
`self.sys_overlap` exists (the `try` branch): `c0 = np.append(sys_overlap, 0)`,
then `c0[c0 < 0.01] = 0`, then for skymapper one further 0 is appended
(the flooring of the appended 0 is a no-op, so flooring after the append
equals the source's order of operations). -/
def fit_comp_c0 (system : RefSystem) (sys_overlap : List ℝ) : List ℝ :=
  let c0 := (sys_overlap ++ [0]).map floor01
  if system = RefSystem.skymapper then c0 ++ [0] else c0

/-- Embedding of `sauron._make_c0` (the `except` branch of `fit_comp`, used
when overlap data is unavailable): the seed starts as `[0,0,0,0,0,0.01]` and
0.1 is added to the entry of each band present in `sys_filters`. -/
def make_c0 (sys_filters : List Char) : List ℝ :=
  [if 'g' ∈ sys_filters then 0 + 0.1 else 0,
   if 'r' ∈ sys_filters then 0 + 0.1 else 0,
   if 'i' ∈ sys_filters then 0 + 0.1 else 0,
   if 'z' ∈ sys_filters then 0 + 0.1 else 0,
   if 'y' ∈ sys_filters then 0 + 0.1 else 0,
   0.01]

/-- The seed as claim C5 states it: per-band overlap fractions floored to zero
below 1%, with exponent seed 0.01. -/
def spec_seed_claim (sys_overlap : List ℝ) : List ℝ :=
  sys_overlap.map floor01 ++ [0.01]

/-- The fallback seed as the spec states it: each active band seeded at 0.1,
others at 0, exponent at 0.01. -/
def spec_c0_fallback (sys_filters : List Char) : List ℝ :=
  [if 'g' ∈ sys_filters then 0.1 else 0,
   if 'r' ∈ sys_filters then 0.1 else 0,
   if 'i' ∈ sys_filters then 0.1 else 0,
   if 'z' ∈ sys_filters then 0.1 else 0,
   if 'y' ∈ sys_filters then 0.1 else 0,
   0.01]

/-- Embedding of `sauron._make_bds`: bound `(0, 2)` for each of g, r, i, z, y
present in `sys_filters`, the degenerate `(0, 1e-10)` otherwise, and
`(-10, 10)` for the exponent. -/
def make_bds (sys_filters : List Char) : List (ℝ × ℝ) :=
  (['g', 'r', 'i', 'z', 'y'].map
    (fun f => if f ∈ sys_filters then ((0 : ℝ), (2 : ℝ)) else (0, 1e-10))) ++ [(-10, 10)]

/-- Embedding of `sauron.R_vector`: `coeff[0] + coeff[1]*x`. -/
def R_vector (coeff : ℝ × ℝ) (x : ℝ) : ℝ := coeff.1 + coeff.2 * x

/-- Embedding of `sauron._minimize_R_vector`, the objective handed to the
optimizer in `calculate_R`: `np.nansum(abs(fit - y))` where
`fit = R_vector(x)` elementwise — a sum of absolute deviations. -/
def minimize_R_vector (coeff : ℝ × ℝ) (x y : List ℝ) : ℝ :=
  ((x.zip y).map (fun p => |R_vector coeff p.1 - p.2|)).sum

/-- The objective claim C4 states: least squares, the sum of squared
deviations of `e0 + e1*color` from the extinction response. -/
def spec_R_lsq_objective (coeff : ℝ × ℝ) (x y : List ℝ) : ℝ :=
  ((x.zip y).map (fun p => (coeff.1 + coeff.2 * p.1 - p.2) ^ 2)).sum

/-- The sample filter in `sauron.calculate_R`: `gr < 1` when `self.gr_lims` is
None, else `gr_lims[0] < gr < gr_lims[1]` (note: `gi_lims` is never consulted
by this method). -/
def calc_R_ind (gr : List ℝ) (gr_lims : Option (ℝ × ℝ)) : List Bool :=
  match gr_lims with
  | none => gr.map (fun c => if c < 1 then true else false)
  | some (lo, hi) => gr.map (fun c => if lo < c ∧ c < hi then true else false)

/-- Embedding of the data preparation in `sauron.calculate_R` before the
optimizer call: the per-sample extinction response
`ext = (m_e - mags) / 0.1` (with `ebv = 0.1` fixed and `m_e` the reddened
synthetic magnitudes returned by the external spectral-synthesis collaborator),
the colour `gr = sys_mags['g'] - sys_mags['r']`, the filter `calc_R_ind`, and
the selected fit data `x = gr[ind]`, `y = ext[ind]`. -/
def calc_R_prep (sys_mags : List MagTable) (mags m_e : List ℝ)
    (gr_lims : Option (ℝ × ℝ)) : List ℝ × List ℝ :=
  let ext := (m_e.zip mags).map (fun p => (p.1 - p.2) / 0.1)
  let gr := sys_mags.map (fun m => m.g - m.r)
  let ind := calc_R_ind gr gr_lims
  (boolSelect gr ind, boolSelect ext ind)

/-- The extinction-fit samples as the amended claim C4 states them: pairs of
colour `g-r` and response `(reddened - true)/0.1`, keeping a pair when its
colour passes the g-r filter (`< 1` by default, else inside the g-r limits). -/
def spec_R_samples (sys_mags : List MagTable) (mags m_e : List ℝ)
    (gr_lims : Option (ℝ × ℝ)) : List (ℝ × ℝ) :=
  let pts := (sys_mags.map (fun m => m.g - m.r)).zip
    ((m_e.zip mags).map (fun p => (p.1 - p.2) / 0.1))
  pts.filter (fun q =>
    match gr_lims with
    | none => if q.1 < 1 then true else false
    | some (lo, hi) => if lo < q.1 ∧ q.1 < hi then true else false)

/-- Linear interpolation with zero fill outside the support, the semantics of
`interp1d(wave, throughput, bounds_error=False, fill_value=0)` evaluated at a
point: zero left of the first node and right of the last node, and the usual
two-point linear formula on each interval. -/
def interpLin : List (ℝ × ℝ) → ℝ → ℝ
  | (x1, y1) :: (x2, y2) :: rest, t =>
      if t < x1 then 0
      else if t ≤ x2 then y1 + (y2 - y1) * (t - x1) / (x2 - x1)
      else interpLin ((x2, y2) :: rest) t
  | _, _ => 0

/-- Trapezoidal integration, the semantics of `np.trapz(y, x)`:
the sum of `(x[k+1]-x[k]) * (y[k]+y[k+1]) / 2`. -/
def trapz : List ℝ → List ℝ → ℝ
  | y1 :: y2 :: ys, x1 :: x2 :: xs => (x2 - x1) * (y1 + y2) / 2 + trapz (y2 :: ys) (x2 :: xs)
  | _, _ => 0

/-- The overlap fraction computed inside `sauron.filter_overlap` for one
reference band: `np.trapz(func(band.wave) * band.throughput, x=band.wave) /
np.trapz(band.throughput, x=band.wave)` with `func` the zero-filled linear
interpolant of the reference band onto the target grid. -/
def overlap_of (band : Bandpass) (sys_band : Bandpass) : ℝ :=
  trapz ((band.wave.map (interpLin (sys_band.wave.zip sys_band.throughput))).zipWith
      (fun a b => a * b) band.throughput) band.wave
    / trapz band.throughput band.wave

/-- Embedding of `sauron.filter_overlap`: the overlap fraction is collected for
every reference band, the active-band string concatenates (in catalog order)
the bands whose overlap exceeds 0.05, and a ValueError is raised when no band
qualifies. -/
def filter_overlap (band : Bandpass) (sys_bands : List (Char × Bandpass)) :
    Except PyError (List Char × List ℝ) :=
  let percentage := sys_bands.map (fun p => overlap_of band p.2)
  let bands := (sys_bands.filter (fun p =>
    if overlap_of band p.2 > 0.05 then true else false)).map (fun p => p.1)
  if bands = [] then Except.error PyError.valueError else Except.ok (bands, percentage)

/-- Helper: with only band g active, unit g weight and zero exponent, the
composite collapses to the g magnitude. -/
theorem make_composite_single_g (m : MagTable) :
    make_composite ['g'] ⟨1, 0, 0, 0, 0, 0⟩ m = m.g := by
  unfold make_composite mag2flux get_extinction_zero
  have hr : ('r' ∈ (['g'] : List Char)) = False := by simp
  have hz : ('z' ∈ (['g'] : List Char)) = False := by simp
  have hy : ('y' ∈ (['g'] : List Char)) = False := by simp
  simp only [hr, hz, hy, if_false, sub_zero]
  rw [Real.rpow_zero]
  have hcollapse :
      ((1 : ℝ) * (10 : ℝ) ^ (2 / 5 * (25 - m.g)) + 0 * 0
        + 0 * (10 : ℝ) ^ (2 / 5 * (25 - m.i)) + 0 * 0 + 0 * 0) * 1
      = (10 : ℝ) ^ (2 / 5 * (25 - m.g)) := by ring
  rw [hcollapse, Real.logb_rpow (by norm_num) (by norm_num)]
  ring

/-- C1: with zero extinction, the composite-magnitude evaluator computes
exactly the spec formula: fluxes from magnitudes via 10^(2/5*(25-mag)),
a weighted flux sum over the bands with the non-required bands contributing
zero flux when not in the active-band string, the (f_g/f_i)^exponent factor,
and conversion back to magnitude with -2.5*log10(raw) + 25. -/
theorem C1_make_composite_matches_spec (sys_filters : List Char) (c : Coeff) (m : MagTable) :
    make_composite sys_filters c m = spec_composite sys_filters c m := by
  unfold make_composite spec_composite mag2flux spec_flux get_extinction_zero
  simp only [sub_zero]

/-- C9: with active bands = single band g, coefficient vector (1,0,0,0,0,0) and
zero extinction, the composite magnitude equals the input g magnitude for every
input magnitude table; in particular g-magnitude 18.0 gives composite 18.0. -/
theorem C9_single_band_identity :
    (∀ m : MagTable, make_composite ['g'] ⟨1, 0, 0, 0, 0, 0⟩ m = m.g) ∧
    make_composite ['g'] ⟨1, 0, 0, 0, 0, 0⟩ ⟨18, 18, 18, 18, 18⟩ = 18 :=
  ⟨fun m => make_composite_single_g m, make_composite_single_g ⟨18, 18, 18, 18, 18⟩⟩

/-- C10: the coeff argument of make_composite has no effect: the composite for
an externally supplied magnitude table is identical whatever coefficient vector
is passed (or none), and always equals the composite computed from the
instance's stored coefficients; concretely, passing an absurd coefficient
vector still returns the stored-coefficient result. -/
theorem C10_coeff_arg_ignored :
    (∀ (sys_filters : List Char) (self_coeff : Coeff) (c1 c2 : Coeff) (m : MagTable),
      make_composite_meth sys_filters self_coeff (some c1) m
        = make_composite_meth sys_filters self_coeff (some c2) m ∧
      make_composite_meth sys_filters self_coeff (some c1) m
        = make_composite_meth sys_filters self_coeff none m ∧
      make_composite_meth sys_filters self_coeff none m
        = make_composite sys_filters self_coeff m) ∧
    make_composite_meth ['g'] ⟨1, 0, 0, 0, 0, 0⟩ (some ⟨7, 7, 7, 7, 7, 7⟩) ⟨18, 18, 18, 18, 18⟩
      = 18 := by
  refine ⟨fun _ _ _ _ _ => ⟨rfl, rfl, rfl⟩, ?_⟩
  exact make_composite_single_g ⟨18, 18, 18, 18, 18⟩

/-- Helper: selecting from a list by a mask computed by mapping a predicate
over the same list is filtering; stated against the zipped pairing with a
parallel list, first components. -/
theorem boolSelect_filter_fst {α β : Type} (p : α → Bool) :
    ∀ (as : List α) (bs : List β), bs.length = as.length →
      boolSelect as (as.map p) = ((as.zip bs).filter (fun q => p q.1)).map Prod.fst := by
  intro as
  induction as with
  | nil => intro bs h; simp [boolSelect]
  | cons a as ih =>
    intro bs h
    cases bs with
    | nil => exact absurd h (by simp)
    | cons b bs =>
      have h' : bs.length = as.length := by simpa using h
      cases hpa : p a <;>
        simp [boolSelect, List.filter_cons, hpa, ih bs h']

/-- Helper: the same selection applied to the parallel list gives the second
components of the filtered zip. -/
theorem boolSelect_filter_snd {α β : Type} (p : α → Bool) :
    ∀ (as : List α) (bs : List β), bs.length = as.length →
      boolSelect bs (as.map p) = ((as.zip bs).filter (fun q => p q.1)).map Prod.snd := by
  intro as
  induction as with
  | nil =>
    intro bs h
    have : bs = [] := List.length_eq_zero.mp h
    simp [this, boolSelect]
  | cons a as ih =>
    intro bs h
    cases bs with
    | nil => exact absurd h (by simp)
    | cons b bs =>
      have h' : bs.length = as.length := by simpa using h
      cases hpa : p a <;>
        simp [boolSelect, List.filter_cons, hpa, ih bs h']

/-- C2: with colour limits that exclude every calibration sample, the
coefficient-fit objective does not raise anything: it silently computes an
empty difference array and returns the residual 0 (np.nansum of an empty
array).  Concretely, with gr_lims = (2, 3) and a single sample of colour
g-r = 1, comp_minimizer returns Except.ok (0, []) — no InsufficientDataError
exists anywhere in the code. -/
theorem C2_empty_color_cut_returns_zero :
    comp_minimizer
      { sys_filters := ['g', 'r', 'i'], coeff := ⟨0.1, 0.1, 0.1, 0.1, 0.1, 0.01⟩,
        sys_mags := [⟨18, 17, 17.5, 17.2, 17.1⟩], mags := [18],
        gr_lims := some (2, 3), gi_lims := none, mask := none }
      ⟨0.1, 0.1, 0.1, 0.1, 0.1, 0.01⟩
      = Except.ok (0, []) := by
  norm_num [comp_minimizer, boolSelect]

/-- C6: with g-i colour limits specified and no g-r limits, the coefficient-fit
sample filter crashes: the g-i branch of comp_minimizer subscripts
self.gr_lims, which is None, raising TypeError instead of applying the g-i
limits; and the colour variable used by the cubic corrector (self.gr, built in
init) is g-r = 0.5 for this sample, not g-i = 0.8, regardless of gi_lims. -/
theorem C6_gi_limits_typeerror :
    comp_minimizer
      { sys_filters := ['g', 'r', 'i'], coeff := ⟨0.1, 0.1, 0.1, 0.1, 0.1, 0.01⟩,
        sys_mags := [⟨1, 0.5, 0.2, 0.2, 0.2⟩], mags := [1],
        gr_lims := none, gi_lims := some (0.2, 0.4), mask := none }
      ⟨0.1, 0.1, 0.1, 0.1, 0.1, 0.01⟩
      = Except.error PyError.typeError ∧
    init_gr [⟨1, 0.5, 0.2, 0.2, 0.2⟩] none = [0.5] ∧
    cubic_correction [0, 1, 0, 0] (init_gr [⟨1, 0.5, 0.2, 0.2, 0.2⟩] none) = [0.5] ∧
    ([(⟨1, 0.5, 0.2, 0.2, 0.2⟩ : MagTable)].map (fun m => m.g - m.i)) = [0.8] ∧
    (0.5 : ℝ) ≠ 0.8 := by
  refine ⟨rfl, ?_, ?_, ?_, by norm_num⟩
  · norm_num [init_gr]
  · norm_num [init_gr, cubic_correction]
  · norm_num

/-- C7: the residual-mask update of the cubic corrector is monotone: every
index that is true after fit_cubic_correction's sigma-clip update was already
true in the mask produced by the coefficient fitter, whatever boolean outlier
flags the sigma clip returns — no masked-out sample is ever restored. -/
theorem C7_mask_monotone (mask clip : List Bool) (k : ℕ)
    (h : (fit_cubic_mask_update mask clip).getD k false = true) :
    mask.getD k false = true := by
  induction mask generalizing clip k with
  | nil => simp [fit_cubic_mask_update] at h
  | cons a as ih =>
    cases clip with
    | nil => simp [fit_cubic_mask_update] at h
    | cons b bs =>
      cases k with
      | zero =>
        cases b with
        | true => simp [fit_cubic_mask_update] at h
        | false => simpa [fit_cubic_mask_update] using h
      | succ n =>
        simp only [fit_cubic_mask_update, List.zip_cons_cons, List.map_cons,
          List.getD_cons_succ] at h ⊢
        exact ih bs n h

/-- Witness for C7 at a concrete input: mask = [true, true], sigma-clip flags
= [false, true], index 0 survives the update, so it was true before. -/
theorem C7_mask_monotone_witness : ([true, true] : List Bool).getD 0 false = true :=
  C7_mask_monotone [true, true] [false, true] 0 (by decide)

/-- C8: the optimizer bounds built by make_bds are (0, 2) for each band in the
active-band string, the degenerate (0, 1e-10) for each band not in it, and
(-10, 10) for the exponent; hence any coefficient vector respecting those
bounds — which is what the bounded optimizer returns and fit_comp stores
unclamped — has magnitude at most 1e-9 at every inactive band's entry. -/
theorem C8_inactive_band_bounds (sys_filters : List Char) (x : List ℝ)
    (hbd : ∀ k, k < 6 →
      ((make_bds sys_filters).getD k (0, 0)).1 ≤ x.getD k 0 ∧
      x.getD k 0 ≤ ((make_bds sys_filters).getD k (0, 0)).2) :
    (∀ k, k < 5 → ((['g', 'r', 'i', 'z', 'y'] : List Char).getD k 'g') ∉ sys_filters →
      |x.getD k 0| ≤ 1e-9) ∧
    (∀ k, k < 5 →
      (make_bds sys_filters).getD k (0, 0)
        = if (['g', 'r', 'i', 'z', 'y'] : List Char).getD k 'g' ∈ sys_filters
          then ((0 : ℝ), (2 : ℝ)) else (0, 1e-10)) ∧
    (make_bds sys_filters).getD 5 (0, 0) = (-10, 10) := by
  have hshape : ∀ k, k < 5 →
      (make_bds sys_filters).getD k (0, 0)
        = if (['g', 'r', 'i', 'z', 'y'] : List Char).getD k 'g' ∈ sys_filters
          then ((0 : ℝ), (2 : ℝ)) else (0, 1e-10) := by
    intro k hk
    interval_cases k <;> simp [make_bds]
  refine ⟨?_, hshape, by simp [make_bds]⟩
  intro k hk hmem
  have hb := hbd k (by omega)
  rw [hshape k hk, if_neg hmem] at hb
  have h0 : (0 : ℝ) ≤ x.getD k 0 := hb.1
  have h1 : x.getD k 0 ≤ 1e-10 := hb.2
  rw [abs_of_nonneg h0]
  calc x.getD k 0 ≤ 1e-10 := h1
    _ ≤ 1e-9 := by norm_num

/-- Witness for C8 at a concrete input: active bands = [g], coefficient vector
[1, 0, 0, 0, 0, 0] respects the bounds, and the inactive band r (index 1) has
coefficient magnitude at most 1e-9. -/
theorem C8_inactive_band_bounds_witness :
    |([1, 0, 0, 0, 0, 0] : List ℝ).getD 1 0| ≤ 1e-9 :=
  (C8_inactive_band_bounds ['g'] [1, 0, 0, 0, 0, 0]
      (by
        intro k hk
        interval_cases k <;>
          norm_num [make_bds, (by decide : ('r' = 'g') = False),
            (by decide : ('i' = 'g') = False), (by decide : ('z' = 'g') = False),
            (by decide : ('y' = 'g') = False)])).1
    1 (by norm_num) (by decide)

/-- C5 counterexample: with overlap data available, the seed appended for the
exponent is 0, not 0.01 as the claim states: at sys_overlap =
[0.5, 0.5, 0.5, 0.5, 0.5] the code's seed ends in 0 while the claimed seed
ends in 0.01, so the two vectors differ. -/
theorem C5_seed_counterexample :
    (fit_comp_c0 RefSystem.ps1 [0.5, 0.5, 0.5, 0.5, 0.5]).getD 5 0 = 0 ∧
    (spec_seed_claim [0.5, 0.5, 0.5, 0.5, 0.5]).getD 5 0 = 0.01 ∧
    fit_comp_c0 RefSystem.ps1 [0.5, 0.5, 0.5, 0.5, 0.5]
      ≠ spec_seed_claim [0.5, 0.5, 0.5, 0.5, 0.5] := by
  refine ⟨?_, ?_, ?_⟩
  · norm_num [fit_comp_c0, floor01,
      (by decide : (RefSystem.ps1 = RefSystem.skymapper) = False)]
  · norm_num [spec_seed_claim, floor01]
  · intro h
    have h5 := congrArg (fun l => l.getD 5 0) h
    norm_num [fit_comp_c0, spec_seed_claim, floor01,
      (by decide : (RefSystem.ps1 = RefSystem.skymapper) = False)] at h5

/-- C5 amended: whenever per-band overlap fractions are available, the initial
guess is the overlap fractions floored to zero below 1% with exponent seed 0
(the appended entry is 0 and the floor keeps it 0); when overlap data is
unavailable, each active band is seeded at 0.1 and the exponent at 0.01. -/
theorem C5_seed_amended :
    (∀ sys_overlap : List ℝ,
      fit_comp_c0 RefSystem.ps1 sys_overlap = sys_overlap.map floor01 ++ [0]) ∧
    (∀ sys_filters : List Char, make_c0 sys_filters = spec_c0_fallback sys_filters) := by
  constructor
  · intro ov
    simp [fit_comp_c0, floor01,
      (by decide : (RefSystem.ps1 = RefSystem.skymapper) = False)]
  · intro fs
    simp [make_c0, spec_c0_fallback]

/-- C4 counterexample: the objective function handed to the extinction-response
optimizer is a sum of absolute deviations, not the claimed least-squares sum:
at coefficients (0,0) and a single sample with colour 0 and response 2 the
code's objective is 2 while the least-squares objective is 4. -/
theorem C4_R_objective_counterexample :
    minimize_R_vector (0, 0) [0] [2] = 2 ∧
    spec_R_lsq_objective (0, 0) [0] [2] = 4 ∧
    minimize_R_vector (0, 0) [0] [2] ≠ spec_R_lsq_objective (0, 0) [0] [2] := by
  refine ⟨?_, ?_, ?_⟩
  · norm_num [minimize_R_vector, R_vector]
  · norm_num [spec_R_lsq_objective]
  · norm_num [minimize_R_vector, spec_R_lsq_objective, R_vector]

/-- C4 amended: the extinction-response fitter computes the per-sample response
(reddened - true)/0.1, restricts to samples with g-r < 1 when no g-r limits
are configured and to the g-r limit interval otherwise, and fits e0 + e1*color
by least-absolute-deviation minimization (the objective is the sum of the
absolute residuals of the linear model). -/
theorem C4_R_fit_amended (sys_mags : List MagTable) (mags m_e : List ℝ)
    (gr_lims : Option (ℝ × ℝ)) (coeff : ℝ × ℝ) (x y : List ℝ)
    (h1 : mags.length = sys_mags.length) (h2 : m_e.length = sys_mags.length) :
    calc_R_prep sys_mags mags m_e gr_lims
      = ((spec_R_samples sys_mags mags m_e gr_lims).map Prod.fst,
         (spec_R_samples sys_mags mags m_e gr_lims).map Prod.snd) ∧
    minimize_R_vector coeff x y
      = ((x.zip y).map (fun p => |coeff.1 + coeff.2 * p.1 - p.2|)).sum := by
  constructor
  · have hlen : ((m_e.zip mags).map (fun p => (p.1 - p.2) / 0.1)).length
        = (sys_mags.map (fun m => m.g - m.r)).length := by
      simp [h1, h2]
    rcases gr_lims with _ | ⟨lo, hi⟩
    · simp only [calc_R_prep, calc_R_ind, spec_R_samples]
      rw [boolSelect_filter_fst _ _ _ hlen, boolSelect_filter_snd _ _ _ hlen]
    · simp only [calc_R_prep, calc_R_ind, spec_R_samples]
      rw [boolSelect_filter_fst _ _ _ hlen, boolSelect_filter_snd _ _ _ hlen]
  · rfl

/-- Witness for C4 at a concrete input: one sample with colour 1 and reddened
minus true difference 1 (response 10), no colour limits. -/
theorem C4_R_fit_amended_witness :
    calc_R_prep [⟨2, 1, 1, 1, 1⟩] [2] [3] none
      = ((spec_R_samples [⟨2, 1, 1, 1, 1⟩] [2] [3] none).map Prod.fst,
         (spec_R_samples [⟨2, 1, 1, 1, 1⟩] [2] [3] none).map Prod.snd) :=
  (C4_R_fit_amended [⟨2, 1, 1, 1, 1⟩] [2] [3] none (0, 0) [] [] rfl rfl).1

/-- C3: the overlap detector's significance threshold in this code is 5%, not
the claimed default of 1% (the method's own docstring also says 1%): for a
flat unit target bandpass on [0, 1], a reference band g of constant
throughput 1 has overlap fraction 1 and is kept, while a reference band r of
constant throughput 0.03 has overlap fraction 0.03 — above the claimed 1%
threshold — and is excluded from the active-band string. -/
theorem C3_overlap_threshold_is_five_percent :
    filter_overlap ⟨[0, 1], [1, 1]⟩
        [('g', ⟨[0, 1], [1, 1]⟩), ('r', ⟨[0, 1], [0.03, 0.03]⟩)]
      = Except.ok (['g'], [1, 0.03]) ∧ (0.03 : ℝ) > 0.01 := by
  constructor
  · norm_num [filter_overlap, overlap_of, interpLin, trapz, List.zipWith, List.filter_cons]
  · norm_num

end

end Calibrimbore
